import Mathlib

/-!
Verification development for the landmark cost function of
`cartographer/mapping/internal/optimization/cost_functions/landmark_cost_function_2d.h`.

The numeric type `double` (and the Ceres jet type instantiated at plain
values) is modelled by `ℚ`, over which every operation of the code in
scope (quaternion products, cross products, linear interpolation,
matrix-vector products) is exact and executable.  Quaternions are
modelled by the structure `Quat` with the scalar part first, matching the
`Eigen::Quaternion(w, x, y, z)` constructor used at lines 79-81 of the
header.  The helper functions declared in `cost_helpers.h`
(`InterpolateNodes2D`, `ComputeUnscaledError`, `ScaleErrorWithCovariance`)
and `common::ToSeconds` are not part of the excerpt; they are modelled
from the specification, as stated in their doc comments.
-/

/-- Quaternion over ℚ, scalar part `w` first (Eigen `Quaternion(w,x,y,z)`
constructor order, as used to rebuild the interpolated quaternion from the
rotation array in `operator()`). -/
@[ext]
structure Quat where
  w : ℚ
  x : ℚ
  y : ℚ
  z : ℚ
deriving DecidableEq

/-- Three-dimensional vector over ℚ (models `Eigen::Matrix<T, 3, 1>`). -/
@[ext]
structure V3 where
  x : ℚ
  y : ℚ
  z : ℚ
deriving DecidableEq

/-- Hamilton product, as implemented by `Eigen::Quaternion::operator*`. -/
def Quat.mul (a b : Quat) : Quat :=
  ⟨a.w * b.w - a.x * b.x - a.y * b.y - a.z * b.z,
   a.w * b.x + a.x * b.w + a.y * b.z - a.z * b.y,
   a.w * b.y - a.x * b.z + a.y * b.w + a.z * b.x,
   a.w * b.z + a.x * b.y - a.y * b.x + a.z * b.w⟩

instance : Mul Quat := ⟨Quat.mul⟩

/-- Quaternion conjugate (equals the inverse for unit quaternions; models
`Eigen::Quaternion::conjugate` / `inverse` on unit input). -/
def Quat.conj (a : Quat) : Quat := ⟨a.w, -a.x, -a.y, -a.z⟩

/-- Squared norm of a quaternion. -/
def Quat.normSq (a : Quat) : ℚ := a.w ^ 2 + a.x ^ 2 + a.y ^ 2 + a.z ^ 2

/-- Componentwise scalar multiple of a quaternion. -/
def Quat.smul (c : ℚ) (a : Quat) : Quat := ⟨c * a.w, c * a.x, c * a.y, c * a.z⟩

instance : SMul ℚ Quat := ⟨Quat.smul⟩

/-- Componentwise sum of quaternions. -/
def Quat.add (a b : Quat) : Quat := ⟨a.w + b.w, a.x + b.x, a.y + b.y, a.z + b.z⟩

instance : Add Quat := ⟨Quat.add⟩

/-- Componentwise sum of 3-vectors. -/
def V3.add (a b : V3) : V3 := ⟨a.x + b.x, a.y + b.y, a.z + b.z⟩

instance : Add V3 := ⟨V3.add⟩

/-- Componentwise difference of 3-vectors. -/
def V3.sub (a b : V3) : V3 := ⟨a.x - b.x, a.y - b.y, a.z - b.z⟩

instance : Sub V3 := ⟨V3.sub⟩

/-- Componentwise scalar multiple of a 3-vector. -/
def V3.smul (c : ℚ) (a : V3) : V3 := ⟨c * a.x, c * a.y, c * a.z⟩

instance : SMul ℚ V3 := ⟨V3.smul⟩

/-- Cross product of 3-vectors (Eigen `cross`). -/
def V3.cross (a b : V3) : V3 :=
  ⟨a.y * b.z - a.z * b.y, a.z * b.x - a.x * b.z, a.x * b.y - a.y * b.x⟩

/-- Rotation of a vector by a quaternion, by the polynomial formula Eigen
uses in `Quaternion::_transformVector` (`uv = 2 u × v; v + w uv + u × uv`),
which for a unit quaternion `q` equals the rotation action `q v q*`.  This
models the product `interpolated_quaternion * translation_error` at line 83
of the header. -/
def quatRotate (q : Quat) (v : V3) : V3 :=
  let u : V3 := ⟨q.x, q.y, q.z⟩
  let uv : V3 := (2 : ℚ) • (u.cross v)
  v + q.w • uv + u.cross uv

/-- Rigid transform in 3D: rotation quaternion plus translation vector
(models `transform::Rigid3d`). -/
structure Rigid3 where
  rotation : Quat
  translation : V3
deriving DecidableEq

/-- Trajectory node record as consumed by the constructor: a timestamp (in
seconds, modelled by ℚ) and a gravity-alignment quaternion (models the
`time` and `gravity_alignment` fields of `NodeSpec2D`). -/
structure NodeSpec2D where
  time : ℚ
  gravity_alignment : Quat

/-- Landmark observation record, with the fields the constructor reads
(models `PoseGraphInterface::LandmarkNode::LandmarkObservation`).  The
spec describes `inverse_covariance` as a 6×6 symmetric positive
semi-definite matrix applied as a linear transform; it is modelled as a
full 6×6 rational matrix.  (The header stores the entries as
`std::array<double, 9UL>`; the function consuming them lives in
`cost_helpers.h`, outside the excerpt, so the matrix shape follows the
spec.) -/
structure LandmarkObservation where
  landmark_to_tracking_transform : Rigid3
  time : ℚ
  translation_weight : ℚ
  rotation_weight : ℚ
  observed_from_tracking : Bool
  inverse_covariance : Fin 6 → Fin 6 → ℚ

/-- Modelled from the spec: `common::ToSeconds` converts a time difference
to seconds; this development measures times directly in seconds (ℚ), so
the conversion is the identity on the difference. -/
def toSeconds (d : ℚ) : ℚ := d

/-- Linear interpolation of quaternion components.  Used inside
`InterpolateNodes2D` below; see its doc comment. -/
def qlerp (a b : Quat) (t : ℚ) : Quat := ((1 - t) • a) + (t • b)

/-- Linear interpolation of translation vectors (spec §4.1: "Translation
interpolation: linear interpolation between the two translation
vectors"). -/
def vlerp (a b : V3) (t : ℚ) : V3 := ((1 - t) • a) + (t • b)

/-- Modelled from the spec: `InterpolateNodes2D` is declared in
`cost_helpers.h`, which is not part of the excerpt.  Spec §4.1: given two
rotations, two translations, two gravity-alignment rotations and a scalar
parameter, produce one rotation and one translation; each node rotation is
first adjusted by removing its gravity-alignment component, interpolation
happens in that gravity-normalized frame, and the result is re-composed
with an interpolated gravity alignment; translations interpolate linearly.
The spec fixes only the endpoint contract (t = 0 gives the previous pose
exactly, t = 1 the next) and that interior points lie on the shortest
geodesic; the slerp weighting profile is an implementation detail of the
collaborator, modelled here by linear weights on quaternion components
(which traces the same arc up to normalization). -/
def InterpolateNodes2D (prevR : Quat) (prevT : V3) (prevG : Quat)
    (nextR : Quat) (nextT : V3) (nextG : Quat) (t : ℚ) : Quat × V3 :=
  let prevGravityFree := prevR * prevG.conj
  let nextGravityFree := nextR * nextG.conj
  ((qlerp prevGravityFree nextGravityFree t) * (qlerp prevG nextG t),
   vlerp prevT nextT t)

/-- Builder of a 6-vector from its three translation and three rotation
components (models writing the six entries of a `std::array<T, 6>`). -/
def err6 (t0 t1 t2 r0 r1 r2 : ℚ) : Fin 6 → ℚ := fun i =>
  match i with
  | 0 => t0
  | 1 => t1
  | 2 => t2
  | 3 => r0
  | 4 => r1
  | 5 => r2

/-- Modelled from the spec: `ComputeUnscaledError` is declared in
`cost_helpers.h`, which is not part of the excerpt.  Spec §4.2: compose
the landmark-to-tracking transform with the first pose (the frame from
which the landmark is predicted), then compute the residual against the
second pose; translation error is the difference between predicted and
actual translation; rotation error is twice the vector (imaginary) part of
the quaternion of the relative rotation between predicted and actual
orientation, exactly zero when they coincide. -/
def ComputeUnscaledError (z : Rigid3) (r1 : Quat) (t1 : V3)
    (r2 : Quat) (t2 : V3) : Fin 6 → ℚ :=
  let predictedRotation := r1 * z.rotation
  let predictedTranslation := t1 + quatRotate r1 z.translation
  let translationError := predictedTranslation - t2
  let relativeRotation := r2.conj * predictedRotation
  err6 translationError.x translationError.y translationError.z
    (2 * relativeRotation.x) (2 * relativeRotation.y) (2 * relativeRotation.z)

/-- Modelled from the spec: `ScaleErrorWithCovariance` is declared in
`cost_helpers.h`, which is not part of the excerpt.  Spec §4.4: translation
components (first 3) and rotation components (last 3) of the 6-vector
error are first scaled by their respective scalar weights, then the
inverse-covariance matrix is applied as a linear transform to produce the
final weighted residual. -/
def ScaleErrorWithCovariance (e : Fin 6 → ℚ) (tw rw : ℚ)
    (m : Fin 6 → Fin 6 → ℚ) : Fin 6 → ℚ :=
  let scaled : Fin 6 → ℚ := fun j => (if (j : ℕ) < 3 then tw else rw) * e j
  fun i => ∑ j, m i j * scaled j

/-- The cost-function instance: the eight `const` members captured by the
constructor (header lines 112-119, with `inverse_covariance_` modelled as
the 6×6 matrix the spec describes; see `LandmarkObservation`). -/
structure LandmarkCostFunction2D where
  landmark_to_tracking_transform_ : Rigid3
  prev_node_gravity_alignment_ : Quat
  next_node_gravity_alignment_ : Quat
  translation_weight_ : ℚ
  rotation_weight_ : ℚ
  interpolation_parameter_ : ℚ
  observed_from_tracking_ : Bool
  inverse_covariance_ : Fin 6 → Fin 6 → ℚ

/-- The private constructor (header lines 100-110): every member is copied
from the observation and the two node records; the interpolation parameter
is the ratio of the observation-to-previous and next-to-previous time
differences in seconds. -/
def mkLandmarkCostFunction2D (observation : LandmarkObservation)
    (prev_node next_node : NodeSpec2D) : LandmarkCostFunction2D :=
  { landmark_to_tracking_transform_ := observation.landmark_to_tracking_transform
    prev_node_gravity_alignment_ := prev_node.gravity_alignment
    next_node_gravity_alignment_ := next_node.gravity_alignment
    translation_weight_ := observation.translation_weight
    rotation_weight_ := observation.rotation_weight
    interpolation_parameter_ :=
      toSeconds (observation.time - prev_node.time) /
        toSeconds (next_node.time - prev_node.time)
    observed_from_tracking_ := observation.observed_from_tracking
    inverse_covariance_ := observation.inverse_covariance }

/-- The interpolated pose computed at the start of `operator()` (header
lines 57-60): the node pose blocks together with the stored gravity
alignments and interpolation parameter are handed to the interpolator.
Each node pose block is represented by its embedded 3D rotation and
translation (the parameter-block layout is solver-defined per spec §6). -/
def interpolatedPose (c : LandmarkCostFunction2D) (prevR : Quat) (prevT : V3)
    (nextR : Quat) (nextT : V3) : Quat × V3 :=
  InterpolateNodes2D prevR prevT c.prev_node_gravity_alignment_
    nextR nextT c.next_node_gravity_alignment_ c.interpolation_parameter_

/-- The unscaled 6-vector error (header lines 61-72): if
`observed_from_tracking_` holds, the interpolated pose is passed as the
first (tracking-frame) pose and the landmark estimate as the second;
otherwise the roles are swapped. -/
def unscaledError (c : LandmarkCostFunction2D) (prevR : Quat) (prevT : V3)
    (nextR : Quat) (nextT : V3) (lmR : Quat) (lmT : V3) : Fin 6 → ℚ :=
  let irt := interpolatedPose c prevR prevT nextR nextT
  if c.observed_from_tracking_ then
    ComputeUnscaledError c.landmark_to_tracking_transform_ irt.1 irt.2 lmR lmT
  else
    ComputeUnscaledError c.landmark_to_tracking_transform_ lmR lmT irt.1 irt.2

/-- The frame-rotation step (header lines 74-86): the first three error
components are rotated by the given quaternion, the last three are copied
through unchanged. -/
def rotateTranslationError (q : Quat) (e : Fin 6 → ℚ) : Fin 6 → ℚ :=
  let te := quatRotate q ⟨e 0, e 1, e 2⟩
  err6 te.x te.y te.z (e 3) (e 4) (e 5)

/-- The error vector after the frame-rotation step, with the rotation
operator taken from the interpolator's output (header lines 74-86). -/
def rotatedUnscaledError (c : LandmarkCostFunction2D) (prevR : Quat)
    (prevT : V3) (nextR : Quat) (nextT : V3) (lmR : Quat) (lmT : V3) :
    Fin 6 → ℚ :=
  rotateTranslationError (interpolatedPose c prevR prevT nextR nextT).1
    (unscaledError c prevR prevT nextR nextT lmR lmT)

/-- Result of one call of `operator()`: the six residual components written
to `e`, the returned boolean, and the instance after the call.  The method
and all members are `const`, so the post-state is the pre-state. -/
structure CallResult where
  residual : Fin 6 → ℚ
  returned : Bool
  post : LandmarkCostFunction2D

/-- The evaluation `operator()` (header lines 53-94): interpolate the node
poses, compute the unscaled error in the branch selected by
`observed_from_tracking_`, rotate its translation components by the
interpolated rotation, scale with the weights and the inverse-covariance
matrix, write the six components and return `true`. -/
def callResidual (c : LandmarkCostFunction2D) (prevR : Quat) (prevT : V3)
    (nextR : Quat) (nextT : V3) (lmR : Quat) (lmT : V3) : CallResult :=
  { residual :=
      ScaleErrorWithCovariance
        (rotatedUnscaledError c prevR prevT nextR nextT lmR lmT)
        c.translation_weight_ c.rotation_weight_ c.inverse_covariance_
    returned := true
    post := c }

/-- Finiteness, under IEEE-754 double semantics, of the quotient stored by
the constructor: with finite numerator and denominator, the division is
finite exactly when the denominator is nonzero (a zero denominator gives
±infinity, or NaN when the numerator is zero as well).  Rational division
cannot represent the non-finite values, so this flag models that one
aspect of the `double` computation. -/
def interpolationParameterIsFinite (_observation : LandmarkObservation)
    (prev_node next_node : NodeSpec2D) : Bool :=
  decide (toSeconds (next_node.time - prev_node.time) ≠ 0)

/-! Basic algebraic lemmas about the embedded operations. -/

theorem Quat.qsmul_def (c : ℚ) (a : Quat) :
    c • a = ⟨c * a.w, c * a.x, c * a.y, c * a.z⟩ := rfl

theorem Quat.qadd_def (a b : Quat) :
    a + b = ⟨a.w + b.w, a.x + b.x, a.y + b.y, a.z + b.z⟩ := rfl

theorem Quat.mul_def (a b : Quat) :
    a * b = Quat.mul a b := rfl

theorem V3.vsmul_def (c : ℚ) (a : V3) :
    c • a = ⟨c * a.x, c * a.y, c * a.z⟩ := rfl

theorem V3.vadd_def (a b : V3) :
    a + b = ⟨a.x + b.x, a.y + b.y, a.z + b.z⟩ := rfl

theorem V3.vsub_def (a b : V3) :
    a - b = ⟨a.x - b.x, a.y - b.y, a.z - b.z⟩ := rfl

theorem qlerp_zero (a b : Quat) : qlerp a b 0 = a := by
  ext <;> simp [qlerp, Quat.qsmul_def, Quat.qadd_def]

theorem qlerp_one (a b : Quat) : qlerp a b 1 = b := by
  ext <;> simp [qlerp, Quat.qsmul_def, Quat.qadd_def]

theorem vlerp_zero (a b : V3) : vlerp a b 0 = a := by
  ext <;> simp [vlerp, V3.vsmul_def, V3.vadd_def]

theorem vlerp_one (a b : V3) : vlerp a b 1 = b := by
  ext <;> simp [vlerp, V3.vsmul_def, V3.vadd_def]

/-- Multiplying by a conjugate and then by the quaternion itself scales by
the squared norm. -/
theorem Quat.mul_conj_mul (a b : Quat) :
    (a * b.conj) * b = b.normSq • a := by
  ext <;> simp [Quat.mul_def, Quat.mul, Quat.conj, Quat.normSq,
    Quat.qsmul_def] <;> ring

theorem Quat.normSq_one_smul (a b : Quat) (h : b.normSq = 1) :
    b.normSq • a = a := by
  rw [h]; ext <;> simp [Quat.qsmul_def]

/-- Rotating the zero vector gives the zero vector. -/
theorem quatRotate_zero (q : Quat) : quatRotate q ⟨0, 0, 0⟩ = ⟨0, 0, 0⟩ := by
  ext <;> simp [quatRotate, V3.cross, V3.vsmul_def, V3.vadd_def]

/-- C4: when the interpolation parameter is 0 the interpolated rotation and
translation produced by the pose interpolator equal the previous node's
rotation and translation exactly, and when it is 1 they equal the next
node's rotation and translation exactly (for unit gravity-alignment
quaternions, as the data model requires). -/
theorem interpolate_nodes_2d_endpoints (pR nR pG nG : Quat) (pT nT : V3)
    (hp : pG.normSq = 1) (hn : nG.normSq = 1) :
    InterpolateNodes2D pR pT pG nR nT nG 0 = (pR, pT) ∧
    InterpolateNodes2D pR pT pG nR nT nG 1 = (nR, nT) := by
  refine ⟨?_, ?_⟩
  · show ((qlerp (pR * pG.conj) (nR * nG.conj) 0) * (qlerp pG nG 0),
      vlerp pT nT 0) = (pR, pT)
    rw [qlerp_zero, qlerp_zero, vlerp_zero, Quat.mul_conj_mul,
      Quat.normSq_one_smul _ _ hp]
  · show ((qlerp (pR * pG.conj) (nR * nG.conj) 1) * (qlerp pG nG 1),
      vlerp pT nT 1) = (nR, nT)
    rw [qlerp_one, qlerp_one, vlerp_one, Quat.mul_conj_mul,
      Quat.normSq_one_smul _ _ hn]

/-- Witness for `interpolate_nodes_2d_endpoints` at concrete unit
gravity-alignment quaternions. -/
theorem interpolate_nodes_2d_endpoints_witness :
    Quat.normSq ⟨3/5, 4/5, 0, 0⟩ = 1 ∧ Quat.normSq ⟨1, 0, 0, 0⟩ = 1 ∧
    (InterpolateNodes2D ⟨0, 1, 0, 0⟩ ⟨1, 2, 3⟩ ⟨3/5, 4/5, 0, 0⟩
        ⟨0, 0, 1, 0⟩ ⟨4, 5, 6⟩ ⟨1, 0, 0, 0⟩ 0 = (⟨0, 1, 0, 0⟩, ⟨1, 2, 3⟩) ∧
      InterpolateNodes2D ⟨0, 1, 0, 0⟩ ⟨1, 2, 3⟩ ⟨3/5, 4/5, 0, 0⟩
        ⟨0, 0, 1, 0⟩ ⟨4, 5, 6⟩ ⟨1, 0, 0, 0⟩ 1 = (⟨0, 0, 1, 0⟩, ⟨4, 5, 6⟩)) :=
  ⟨by norm_num [Quat.normSq], by norm_num [Quat.normSq],
   interpolate_nodes_2d_endpoints _ _ _ _ _ _ (by norm_num [Quat.normSq])
     (by norm_num [Quat.normSq])⟩

/-- C5: whenever the unscaled 6-vector error is the zero vector, the final
weighted residual written by the evaluation is the zero 6-vector, whatever
the translation weight, rotation weight and inverse-covariance matrix
stored in the instance. -/
theorem landmark_zero_error_zero_residual (c : LandmarkCostFunction2D)
    (prevR : Quat) (prevT : V3) (nextR : Quat) (nextT : V3)
    (lmR : Quat) (lmT : V3)
    (h : unscaledError c prevR prevT nextR nextT lmR lmT = fun _ => 0) :
    (callResidual c prevR prevT nextR nextT lmR lmT).residual = fun _ => 0 := by
  have hrot : rotatedUnscaledError c prevR prevT nextR nextT lmR lmT
      = fun _ => 0 := by
    funext i
    fin_cases i <;>
      simp [rotatedUnscaledError, rotateTranslationError, err6, h,
        quatRotate_zero]
  show ScaleErrorWithCovariance _ _ _ _ = _
  rw [hrot]
  funext i
  simp [ScaleErrorWithCovariance]

/-- Concrete landmark observation for witnesses: identity
landmark-to-tracking transform at time 0, weights 2 and 3, observed from
the tracking frame, identity inverse-covariance matrix. -/
def witnessObservation : LandmarkObservation :=
  { landmark_to_tracking_transform := ⟨⟨1, 0, 0, 0⟩, ⟨0, 0, 0⟩⟩
    time := 0
    translation_weight := 2
    rotation_weight := 3
    observed_from_tracking := true
    inverse_covariance := fun i j => if i = j then 1 else 0 }

/-- Concrete previous node for witnesses: time 0, identity gravity
alignment. -/
def witnessPrevNode : NodeSpec2D := ⟨0, ⟨1, 0, 0, 0⟩⟩

/-- Concrete next node for witnesses: time 1, identity gravity
alignment. -/
def witnessNextNode : NodeSpec2D := ⟨1, ⟨1, 0, 0, 0⟩⟩

/-- Concrete cost-function instance built by the constructor from the
witness records (its interpolation parameter evaluates to 0). -/
def witnessInstance : LandmarkCostFunction2D :=
  mkLandmarkCostFunction2D witnessObservation witnessPrevNode witnessNextNode

/-- Witness for `landmark_zero_error_zero_residual`: with every pose the
identity and the landmark estimate at the prediction, the unscaled error
is the zero vector and the residual is the zero vector. -/
theorem landmark_zero_error_zero_residual_witness :
    unscaledError witnessInstance ⟨1, 0, 0, 0⟩ ⟨0, 0, 0⟩ ⟨1, 0, 0, 0⟩
        ⟨1, 0, 0⟩ ⟨1, 0, 0, 0⟩ ⟨0, 0, 0⟩ = (fun _ => 0)
    ∧ (callResidual witnessInstance ⟨1, 0, 0, 0⟩ ⟨0, 0, 0⟩ ⟨1, 0, 0, 0⟩
        ⟨1, 0, 0⟩ ⟨1, 0, 0, 0⟩ ⟨0, 0, 0⟩).residual = (fun _ => 0) := by
  have h : unscaledError witnessInstance ⟨1, 0, 0, 0⟩ ⟨0, 0, 0⟩ ⟨1, 0, 0, 0⟩
      ⟨1, 0, 0⟩ ⟨1, 0, 0, 0⟩ ⟨0, 0, 0⟩ = (fun _ => 0) := by
    funext i
    fin_cases i <;>
      norm_num [witnessInstance, witnessObservation, witnessPrevNode,
        witnessNextNode, mkLandmarkCostFunction2D, unscaledError,
        interpolatedPose, InterpolateNodes2D, ComputeUnscaledError,
        toSeconds, qlerp, vlerp, quatRotate, err6, Quat.mul_def, Quat.mul,
        Quat.conj, Quat.qsmul_def, Quat.qadd_def, V3.vsmul_def, V3.vadd_def,
        V3.vsub_def, V3.cross]
  exact ⟨h, landmark_zero_error_zero_residual _ _ _ _ _ _ _ h⟩

/-- C1: the residual written by the evaluation is exactly
`ScaleErrorWithCovariance` applied to the frame-rotated error with the
stored scalar weights and inverse-covariance matrix, and that scaling step
first multiplies the translation components (indices 0-2) by the
translation weight and the rotation components (indices 3-5) by the
rotation weight, then applies the 6×6 matrix as a linear transform to
produce the final 6-vector weighted residual. -/
theorem landmark_residual_covariance_scaling (c : LandmarkCostFunction2D)
    (prevR : Quat) (prevT : V3) (nextR : Quat) (nextT : V3)
    (lmR : Quat) (lmT : V3) :
    (callResidual c prevR prevT nextR nextT lmR lmT).residual
      = ScaleErrorWithCovariance
          (rotatedUnscaledError c prevR prevT nextR nextT lmR lmT)
          c.translation_weight_ c.rotation_weight_ c.inverse_covariance_
    ∧ ∀ (e : Fin 6 → ℚ) (tw rw : ℚ) (m : Fin 6 → Fin 6 → ℚ) (i : Fin 6),
        ScaleErrorWithCovariance e tw rw m i
          = ∑ j : Fin 6, m i j * ((if (j : ℕ) < 3 then tw else rw) * e j) :=
  ⟨rfl, fun _ _ _ _ _ => rfl⟩

/-- C2: the unscaled error is computed with the interpolated pose in the
first (tracking-frame) argument position and the landmark estimate second
when `observed_from_tracking_` is true, and with the roles swapped when it
is false; the evaluation's residual is the scaled rotation of exactly this
unscaled error. -/
theorem landmark_unscaled_error_direction (c : LandmarkCostFunction2D)
    (prevR : Quat) (prevT : V3) (nextR : Quat) (nextT : V3)
    (lmR : Quat) (lmT : V3) :
    unscaledError { c with observed_from_tracking_ := true }
        prevR prevT nextR nextT lmR lmT
      = ComputeUnscaledError c.landmark_to_tracking_transform_
          (interpolatedPose c prevR prevT nextR nextT).1
          (interpolatedPose c prevR prevT nextR nextT).2 lmR lmT
    ∧ unscaledError { c with observed_from_tracking_ := false }
        prevR prevT nextR nextT lmR lmT
      = ComputeUnscaledError c.landmark_to_tracking_transform_ lmR lmT
          (interpolatedPose c prevR prevT nextR nextT).1
          (interpolatedPose c prevR prevT nextR nextT).2
    ∧ (callResidual c prevR prevT nextR nextT lmR lmT).residual
      = ScaleErrorWithCovariance
          (rotateTranslationError (interpolatedPose c prevR prevT nextR nextT).1
            (unscaledError c prevR prevT nextR nextT lmR lmT))
          c.translation_weight_ c.rotation_weight_ c.inverse_covariance_ :=
  ⟨rfl, rfl, rfl⟩

/-- C3: between the unscaled-error computation and the covariance scaling,
the evaluation rotates exactly the three translation components (indices
0-2) of the error by the rotation produced by the pose interpolator, and
copies the three rotation components (indices 3-5) through unchanged. -/
theorem landmark_frame_rotation_step (c : LandmarkCostFunction2D)
    (prevR : Quat) (prevT : V3) (nextR : Quat) (nextT : V3)
    (lmR : Quat) (lmT : V3) :
    (callResidual c prevR prevT nextR nextT lmR lmT).residual
      = ScaleErrorWithCovariance
          (rotateTranslationError (interpolatedPose c prevR prevT nextR nextT).1
            (unscaledError c prevR prevT nextR nextT lmR lmT))
          c.translation_weight_ c.rotation_weight_ c.inverse_covariance_
    ∧ ∀ (q : Quat) (e : Fin 6 → ℚ),
        rotateTranslationError q e 0 = (quatRotate q ⟨e 0, e 1, e 2⟩).x
        ∧ rotateTranslationError q e 1 = (quatRotate q ⟨e 0, e 1, e 2⟩).y
        ∧ rotateTranslationError q e 2 = (quatRotate q ⟨e 0, e 1, e 2⟩).z
        ∧ rotateTranslationError q e 3 = e 3
        ∧ rotateTranslationError q e 4 = e 4
        ∧ rotateTranslationError q e 5 = e 5 :=
  ⟨rfl, fun _ _ => ⟨rfl, rfl, rfl, rfl, rfl, rfl⟩⟩

/-- C6: the stored interpolation parameter of a constructed instance is
the observation-to-previous time difference divided by the
next-to-previous time difference, in seconds, and the instance an
evaluation leaves behind stores the same value, so every evaluation of the
instance uses this one constant. -/
theorem landmark_interpolation_parameter_constant
    (observation : LandmarkObservation) (prev_node next_node : NodeSpec2D)
    (prevR : Quat) (prevT : V3) (nextR : Quat) (nextT : V3)
    (lmR : Quat) (lmT : V3) :
    (mkLandmarkCostFunction2D observation prev_node next_node).interpolation_parameter_
      = toSeconds (observation.time - prev_node.time) /
          toSeconds (next_node.time - prev_node.time)
    ∧ ((callResidual (mkLandmarkCostFunction2D observation prev_node next_node)
          prevR prevT nextR nextT lmR lmT).post).interpolation_parameter_
      = toSeconds (observation.time - prev_node.time) /
          toSeconds (next_node.time - prev_node.time) :=
  ⟨rfl, rfl⟩

/-- C7: the evaluation is a total function that returns `true` for every
instance and every input, with no constraint on the stored interpolation
parameter (in particular for values outside [0,1]); the six residual
components are always written (the residual field is a total function on
`Fin 6`). -/
theorem landmark_call_never_fails (c : LandmarkCostFunction2D)
    (prevR : Quat) (prevT : V3) (nextR : Quat) (nextT : V3)
    (lmR : Quat) (lmT : V3) :
    (callResidual c prevR prevT nextR nextT lmR lmT).returned = true :=
  rfl

/-- C8: an evaluation leaves the instance unchanged (every member is
`const` and the call operator is `const`), and a second evaluation of the
instance a first call leaves behind, with identical inputs, produces an
identical residual. -/
theorem landmark_call_pure (c : LandmarkCostFunction2D)
    (prevR : Quat) (prevT : V3) (nextR : Quat) (nextT : V3)
    (lmR : Quat) (lmT : V3) :
    (callResidual c prevR prevT nextR nextT lmR lmT).post = c
    ∧ (callResidual ((callResidual c prevR prevT nextR nextT lmR lmT).post)
          prevR prevT nextR nextT lmR lmT).residual
      = (callResidual c prevR prevT nextR nextT lmR lmT).residual :=
  ⟨rfl, rfl⟩

/-- C9: when the previous and next node timestamps are equal the
denominator of the constructor's division is zero, so under IEEE-754
double semantics the stored interpolation parameter is non-finite; the
construction is a total function that still produces an instance, and
evaluation of that instance still returns `true`. -/
theorem landmark_equal_node_times_nonfinite
    (observation : LandmarkObservation) (prev_node next_node : NodeSpec2D)
    (prevR : Quat) (prevT : V3) (nextR : Quat) (nextT : V3)
    (lmR : Quat) (lmT : V3) (h : prev_node.time = next_node.time) :
    toSeconds (next_node.time - prev_node.time) = 0
    ∧ interpolationParameterIsFinite observation prev_node next_node = false
    ∧ (callResidual (mkLandmarkCostFunction2D observation prev_node next_node)
        prevR prevT nextR nextT lmR lmT).returned = true := by
  have h0 : next_node.time - prev_node.time = 0 := by rw [h]; ring
  exact ⟨by simp [toSeconds, h0],
    by simp [interpolationParameterIsFinite, toSeconds, h0], rfl⟩

/-- Witness for `landmark_equal_node_times_nonfinite`: the same node record
used as previous and next node, so the timestamps coincide. -/
theorem landmark_equal_node_times_nonfinite_witness :
    toSeconds (witnessPrevNode.time - witnessPrevNode.time) = 0
    ∧ interpolationParameterIsFinite witnessObservation witnessPrevNode
        witnessPrevNode = false
    ∧ (callResidual
        (mkLandmarkCostFunction2D witnessObservation witnessPrevNode
          witnessPrevNode)
        ⟨1, 0, 0, 0⟩ ⟨0, 0, 0⟩ ⟨1, 0, 0, 0⟩ ⟨0, 0, 0⟩ ⟨1, 0, 0, 0⟩
        ⟨0, 0, 0⟩).returned = true :=
  landmark_equal_node_times_nonfinite witnessObservation witnessPrevNode
    witnessPrevNode ⟨1, 0, 0, 0⟩ ⟨0, 0, 0⟩ ⟨1, 0, 0, 0⟩ ⟨0, 0, 0⟩
    ⟨1, 0, 0, 0⟩ ⟨0, 0, 0⟩ rfl

/-- C10: for both values of the direction flag the translation components
of the error are rotated by the rotation produced by the pose interpolator
(the same term in both branches, independent of the flag and of the
landmark rotation input); only the arguments of the unscaled-error
computation change between the branches. -/
theorem landmark_rotation_independent_of_direction
    (c : LandmarkCostFunction2D) (prevR : Quat) (prevT : V3)
    (nextR : Quat) (nextT : V3) (lmR : Quat) (lmT : V3) :
    (callResidual { c with observed_from_tracking_ := true }
        prevR prevT nextR nextT lmR lmT).residual
      = ScaleErrorWithCovariance
          (rotateTranslationError (interpolatedPose c prevR prevT nextR nextT).1
            (ComputeUnscaledError c.landmark_to_tracking_transform_
              (interpolatedPose c prevR prevT nextR nextT).1
              (interpolatedPose c prevR prevT nextR nextT).2 lmR lmT))
          c.translation_weight_ c.rotation_weight_ c.inverse_covariance_
    ∧ (callResidual { c with observed_from_tracking_ := false }
        prevR prevT nextR nextT lmR lmT).residual
      = ScaleErrorWithCovariance
          (rotateTranslationError (interpolatedPose c prevR prevT nextR nextT).1
            (ComputeUnscaledError c.landmark_to_tracking_transform_ lmR lmT
              (interpolatedPose c prevR prevT nextR nextT).1
              (interpolatedPose c prevR prevT nextR nextT).2))
          c.translation_weight_ c.rotation_weight_ c.inverse_covariance_ :=
  ⟨rfl, rfl⟩
